import Mathlib

/-!
Shallow embedding of the order / payment core of the matchaciee cafe backend
(Go, GORM, Fiber). Monetary float64 amounts are modelled as exact rationals;
database tables are lists of records; every service function threads the
database state explicitly. Definitions follow the Go source in
internal/services/order_service.go, internal/repositories/order_repository.go,
internal/repositories/payment_repository.go and the payment service file.
-/

namespace Matchaciee

/-! # Definitions -/

/-- Monetary amounts (Go float64 columns declared decimal(10,2)); modelled as
exact rationals, the standard idealisation of the decimal money arithmetic. -/
abbrev Money := ℚ

/-- models.OrderStatus (order.go). -/
inductive OrderStatus where
  | pending
  | preparing
  | ready
  | completed
  | cancelled
deriving DecidableEq, Repr

/-- models.OrderSource (order.go). -/
inductive OrderSource where
  | guest
  | member
  | kiosk
deriving DecidableEq, Repr

/-- models.Product (fields read by the order service; DeletedAt is modelled as
a Boolean soft-delete flag). -/
structure Product where
  id : Nat
  uuid : Nat
  name : String
  basePrice : Money
  isAvailable : Bool
  isCustomizable : Bool
  deleted : Bool
deriving DecidableEq, Repr

/-- models.ProductCustomization (fields read by the order service). -/
structure ProductCustomization where
  uuid : Nat
  productID : Nat
  customizationType : String
  optionName : String
  priceModifier : Money
deriving DecidableEq, Repr

/-- A customization snapshot serialized onto an order item
(the JSON blob built in calculateOrderTotals). -/
structure SnapCustomization where
  customizationType : String
  optionName : String
  priceModifier : Money
deriving DecidableEq, Repr

/-- models.OrderItem (fields written by the order service). -/
structure OrderItem where
  productID : Option Nat
  productName : String
  quantity : Int
  unitPrice : Money
  subtotal : Money
  notes : Option String
  customizations : List SnapCustomization
deriving DecidableEq, Repr

/-- models.Order (fields touched by the order and payment services).
Timestamps are abstract Nat instants. -/
structure Order where
  id : Nat
  uuid : Nat
  orderNumber : String
  userID : Option Nat
  customerName : String
  status : OrderStatus
  orderSource : OrderSource
  subtotal : Money
  tax : Money
  total : Money
  notes : Option String
  completedAt : Option Nat
  items : List OrderItem
deriving DecidableEq, Repr

/-- models.User (fields read by the order service). -/
structure User where
  id : Nat
  uuid : Nat
deriving DecidableEq, Repr

/-- The gateway notification payload (MidtransNotification). All fields are
strings on the wire, exactly as in the Go struct. -/
structure MidtransNotification where
  transactionTime : String
  transactionStatus : String
  transactionID : String
  statusMessage : String
  statusCode : String
  signatureKey : String
  paymentType : String
  orderID : String
  grossAmount : String
  fraudStatus : String
  settlementTime : Option String
deriving DecidableEq, Repr

/-- models.Payment (fields touched by the payment service). The raw metadata
blob is modelled as the stored notification value itself. -/
structure Payment where
  id : Nat
  orderID : Nat
  midtransOrderID : String
  grossAmount : Money
  transactionID : Option String
  transactionStatus : Option String
  paymentType : Option String
  transactionTime : Option Nat
  settlementTime : Option Nat
  fraudStatus : Option String
  statusMessage : Option String
  paymentMetadata : Option MidtransNotification
deriving DecidableEq, Repr

/-- The typed error values of the order and payment services. Each constructor
corresponds to one distinguishable Go error value (sentinel errors, and the
formatted not-found errors which carry the offending id). -/
inductive SvcError where
  | orderNotFound
  | userNotFound
  | productNotFound (uuid : Nat)
  | productNotAvailable (name : String)
  | productNotCustomizable (name : String)
  | customizationNotFound (uuid : Nat)
  | invalidCustomization (optionName : String)
  | invalidStatusTransition
  | orderNumberGenFailed
  | paymentNotFound
  | invalidSignature
  | invalidAmount
deriving DecidableEq, Repr

/-- Decidable equality of service results, for concrete evaluation. -/
instance exceptDecEq {ε α : Type} [DecidableEq ε] [DecidableEq α] :
    DecidableEq (Except ε α) := fun x y =>
  match x, y with
  | .ok a, .ok b =>
      if h : a = b then .isTrue (by rw [h])
      else .isFalse (fun hc => h (Except.ok.inj hc))
  | .error a, .error b =>
      if h : a = b then .isTrue (by rw [h])
      else .isFalse (fun hc => h (Except.error.inj hc))
  | .ok _, .error _ => .isFalse (fun hc => Except.noConfusion hc)
  | .error _, .ok _ => .isFalse (fun hc => Except.noConfusion hc)

/-- Whether an Except result is a success (Go: err == nil). -/
def isOkE {ε α : Type} : Except ε α → Bool
  | .ok _ => true
  | .error _ => false

/-- Successful value of an Except result, if any. -/
def okValue {ε α : Type} : Except ε α → Option α
  | .ok a => some a
  | .error _ => none

/-- The request DTOs of the order service (CreateOrderRequest and friends).
Quantity is a Go int; the min=1,max=100 struct tag is validated by the HTTP
handler, outside these service functions. -/
structure OrderItemCustomization where
  customizationID : Nat
  optionName : String
deriving DecidableEq, Repr

/-- CreateOrderItemRequest DTO. -/
structure CreateOrderItemRequest where
  productID : Nat
  quantity : Int
  notes : Option String
  customizations : List OrderItemCustomization
deriving DecidableEq, Repr

/-- CreateOrderRequest DTO. -/
structure CreateOrderRequest where
  customerName : String
  notes : Option String
  items : List CreateOrderItemRequest
deriving DecidableEq, Repr

/-! ## Go maps

Go map[K]V modelled as an association list where assignment overwrites the
existing binding in place. Iteration order of a Go map is unspecified; the
model iterates in insertion order, which only feeds order-insensitive uses
(summing price modifiers) and the serialized snapshot list. -/

/-- Go map assignment m[k] = v. -/
def goInsert {β : Type} : List (Nat × β) → Nat → β → List (Nat × β)
  | [], k, v => [(k, v)]
  | (k', v') :: rest, k, v =>
      if k' = k then (k, v) :: rest else (k', v') :: goInsert rest k v

/-- Go map read m[k] (with presence flag). -/
def goFind? {β : Type} : List (Nat × β) → Nat → Option β
  | [], _ => none
  | (k', v') :: rest, k => if k' = k then some v' else goFind? rest k

/-! ## Repository lookups (catalog, orders, users, payments) -/

/-- The catalog store: products and product customizations. -/
structure Catalog where
  products : List Product
  customizations : List ProductCustomization
deriving DecidableEq, Repr

/-- First row of a table satisfying a predicate (the SQL First call). -/
def firstRow {α : Type} (p : α → Bool) : List α → Option α
  | [] => none
  | x :: rest => if p x then some x else firstRow p rest

/-- productRepository.FindByUUID: by uuid, soft-deleted rows excluded. -/
def findProductByUUID (cat : Catalog) (u : Nat) : Option Product :=
  firstRow (fun p => p.uuid == u && !p.deleted) cat.products

/-- productRepository.FindCustomizationByUUID: by uuid, no soft-delete filter. -/
def findCustomizationByUUID (cat : Catalog) (u : Nat) : Option ProductCustomization :=
  firstRow (fun c => c.uuid == u) cat.customizations

/-- The backing database state threaded through the services. -/
structure Db where
  users : List User
  catalog : Catalog
  orders : List Order
  payments : List Payment
  nextOrderId : Nat
deriving Repr, DecidableEq

/-- orderRepository.FindByUUID. The uuid column is unique-indexed. -/
def findOrderByUUID (orders : List Order) (u : Nat) : Option Order :=
  firstRow (fun o => o.uuid == u) orders

/-- Lookup of an order row by internal id (the Preload("Order") join and the
UpdateStatus target). -/
def findOrderByID (orders : List Order) (i : Nat) : Option Order :=
  firstRow (fun o => o.id == i) orders

/-- userRepository.FindByUUID. -/
def findUserByUUID (users : List User) (u : Nat) : Option User :=
  firstRow (fun x => x.uuid == u) users

/-- paymentRepository.FindByMidtransOrderID. -/
def findPaymentByMidtransOrderID (payments : List Payment) (s : String) : Option Payment :=
  firstRow (fun p => p.midtransOrderID == s) payments

/-! ## Order lifecycle state machine -/

/-- The validTransitions map literal inside isValidStatusTransition
(order_service.go). Keys absent from the Go map are rendered as none. -/
def validTransitions : OrderStatus → Option (List OrderStatus)
  | .pending => some [.preparing, .cancelled]
  | .preparing => some [.ready]
  | .ready => some [.completed]
  | .completed => none
  | .cancelled => none

/-- orderService.isValidStatusTransition. -/
def isValidStatusTransition (current new : OrderStatus) : Bool :=
  match validTransitions current with
  | none => false
  | some allowed => allowed.contains new

/-- The allowed-successor table exactly as the claim states it
(spec section 4.3): pending to preparing or cancelled, preparing to ready,
ready to completed, completed and cancelled terminal. -/
def allowedSuccessors : OrderStatus → List OrderStatus
  | .pending => [.preparing, .cancelled]
  | .preparing => [.ready]
  | .ready => [.completed]
  | .completed => []
  | .cancelled => []

/-- orderRepository.UpdateStatus applied to one row: sets the status column
and stamps completed_at exactly when the new status is completed. -/
def applyStatus (o : Order) (st : OrderStatus) (now : Nat) : Order :=
  { o with
    status := st,
    completedAt := if st = .completed then some now else o.completedAt }

/-- orderRepository.UpdateStatus over the orders table (UPDATE WHERE id = ?). -/
def updateStatusList (orders : List Order) (oid : Nat) (st : OrderStatus) (now : Nat) :
    List Order :=
  orders.map (fun o => if o.id == oid then applyStatus o st now else o)

/-- orderService.UpdateOrderStatus: fresh read of the order by uuid, validity
check against the current persisted status, then the repository update and a
re-fetch of the updated row. -/
def UpdateOrderStatus (db : Db) (now : Nat) (orderUUID : Nat) (status : OrderStatus) :
    Except SvcError Order × Db :=
  match findOrderByUUID db.orders orderUUID with
  | none => (.error .orderNotFound, db)
  | some order =>
      if isValidStatusTransition order.status status then
        let orders' := updateStatusList db.orders order.id status now
        match findOrderByUUID orders' orderUUID with
        | some updated => (.ok updated, { db with orders := orders' })
        | none => (.error .orderNotFound, { db with orders := orders' })
      else
        (.error .invalidStatusTransition, db)

/-! ## Cart validation (orderService.validateAndFetchProducts) -/

/-- The inner loop of validateAndFetchProducts: resolve each selected
customization, require that it belongs to the product of the line, and key it
by customization id in a Go map (a repeated id overwrites its own entry). -/
def buildCustomMap (cat : Catalog) (product : Product) :
    List OrderItemCustomization → List (Nat × ProductCustomization) →
    Except SvcError (List (Nat × ProductCustomization))
  | [], acc => .ok acc
  | c :: rest, acc =>
      match findCustomizationByUUID cat c.customizationID with
      | none => .error (.customizationNotFound c.customizationID)
      | some custom =>
          if custom.productID ≠ product.id then
            .error (.invalidCustomization c.optionName)
          else
            buildCustomMap cat product rest (goInsert acc c.customizationID custom)

/-- The per-line loop of validateAndFetchProducts, with the two accumulated Go
maps: products keyed by product uuid, and customization maps keyed by product
uuid (only assigned when the line carries at least one selection). -/
def validateLoop (cat : Catalog) :
    List CreateOrderItemRequest →
    List (Nat × Product) →
    List (Nat × (List (Nat × ProductCustomization))) →
    Except SvcError (List (Nat × Product) × List (Nat × (List (Nat × ProductCustomization))))
  | [], products, customizationsMap => .ok (products, customizationsMap)
  | item :: rest, products, customizationsMap =>
      match findProductByUUID cat item.productID with
      | none => .error (.productNotFound item.productID)
      | some product =>
          if !product.isAvailable then
            .error (.productNotAvailable product.name)
          else
            let products' := goInsert products item.productID product
            if item.customizations.length > 0 then
              if !product.isCustomizable then
                .error (.productNotCustomizable product.name)
              else
                match buildCustomMap cat product item.customizations [] with
                | .error e => .error e
                | .ok customMap =>
                    validateLoop cat rest products'
                      (goInsert customizationsMap item.productID customMap)
            else
              validateLoop cat rest products' customizationsMap

/-- orderService.validateAndFetchProducts. -/
def validateAndFetchProducts (cat : Catalog) (items : List CreateOrderItemRequest) :
    Except SvcError (List (Nat × Product) × List (Nat × (List (Nat × ProductCustomization)))) :=
  validateLoop cat items [] []

/-- Whether an error is one of the five cart-validation failures. -/
def isValidationError : SvcError → Bool
  | .productNotFound _ => true
  | .productNotAvailable _ => true
  | .productNotCustomizable _ => true
  | .customizationNotFound _ => true
  | .invalidCustomization _ => true
  | _ => false

/-! ## Pricing (orderService.calculateOrderTotals) -/

/-- Placeholder for a missing product key in calculateOrderTotals: in Go this
would dereference a nil pointer; it is unreachable because
validateAndFetchProducts populates every requested key. -/
def nilProduct : Product :=
  { id := 0, uuid := 0, name := "", basePrice := 0, isAvailable := false,
    isCustomizable := false, deleted := false }

/-- The serialized customization list built while iterating the Go map. -/
def customSnapshots (customMap : List (Nat × ProductCustomization)) :
    List SnapCustomization :=
  customMap.map (fun kc =>
    { customizationType := kc.2.customizationType,
      optionName := kc.2.optionName,
      priceModifier := kc.2.priceModifier })

/-- One iteration of the calculateOrderTotals loop: unit price is the base
price plus the price modifiers of the customization map stored for the
product of this line, and the line subtotal is unit price times quantity. -/
def lineOrderItem (products : List (Nat × Product))
    (customizationsMap : List (Nat × (List (Nat × ProductCustomization))))
    (item : CreateOrderItemRequest) : OrderItem :=
  let product := (goFind? products item.productID).getD nilProduct
  let priced : Money × List SnapCustomization :=
    match goFind? customizationsMap item.productID with
    | some customMap =>
        if customMap.length > 0 then
          (product.basePrice + (customMap.map (fun kc => kc.2.priceModifier)).sum,
           customSnapshots customMap)
        else (product.basePrice, ([] : List SnapCustomization))
    | none => (product.basePrice, ([] : List SnapCustomization))
  { productID := some product.id,
    productName := product.name,
    quantity := item.quantity,
    unitPrice := priced.1,
    subtotal := priced.1 * (item.quantity : Money),
    notes := item.notes,
    customizations := priced.2 }

/-- orderService.calculateOrderTotals: accumulate the order subtotal and the
order items over the request lines, in submission order. -/
def calculateOrderTotals (items : List CreateOrderItemRequest)
    (products : List (Nat × Product))
    (customizationsMap : List (Nat × (List (Nat × ProductCustomization)))) :
    Money × List OrderItem :=
  items.foldl
    (fun acc item =>
      let oi := lineOrderItem products customizationsMap item
      (acc.1 + oi.subtotal, acc.2 ++ [oi]))
    (0, [])

/-! ## Order number generation (orderRepository.GenerateOrderNumber) -/

/-- Wrap-around 64-bit signed addition (Go int on a 64-bit platform). -/
def intAdd64 (a b : ℤ) : ℤ := (a + b + 2 ^ 63) % 2 ^ 64 - 2 ^ 63

/-- Int64 range check of strconv.Atoi (out-of-range input is an error whose
clamped value the caller discards). -/
def goAtoiRange (v : ℤ) : Option ℤ :=
  if v < -(2 ^ 63) ∨ 2 ^ 63 - 1 < v then none else some v

/-- Digits part of strconv.Atoi: all characters must be decimal digits, at
least one, and the signed value must fit an int64. -/
def goAtoiCore (sign : ℤ) (digits : List Char) : Option ℤ :=
  if digits = [] then none
  else if digits.all Char.isDigit then
    goAtoiRange (sign *
      ((digits.foldl (fun acc c => acc * 10 + (c.toNat - '0'.toNat)) 0 : Nat) : ℤ))
  else none

/-- strconv.Atoi: optional single leading sign, then digits. -/
def goAtoi (s : String) : Option ℤ :=
  match s.data with
  | '+' :: rest => goAtoiCore 1 rest
  | '-' :: rest => goAtoiCore (-1) rest
  | rest => goAtoiCore 1 rest

/-- Byte-wise lexicographic strict order on character lists (the varchar
comparison the database uses for ORDER BY on the ASCII order numbers). -/
def charListLt : List Char → List Char → Bool
  | _, [] => false
  | [], _ :: _ => true
  | c :: cs, d :: ds => c.toNat < d.toNat || (c.toNat == d.toNat && charListLt cs ds)

/-- Whether the second list starts with the first list. -/
def stemLeads : List Char → List Char → Bool
  | [], _ => true
  | _ :: _, [] => false
  | c :: cs, d :: ds => c == d && stemLeads cs ds

/-- SQL LIKE with a trailing percent wildcard: the column value starts with
the pattern stem. -/
def likeStartsWith (stem s : String) : Bool :=
  stemLeads stem.data s.data

/-- The lexicographically greatest string of a list
(ORDER BY order_number DESC followed by First on a varchar column). -/
def maxString? : List String → Option String
  | [] => none
  | s :: rest =>
      match maxString? rest with
      | none => some s
      | some m => some (if charListLt s.data m.data then m else s)

/-- The greatest existing order number carrying the MC-YYMMDD- date marker of
today (WHERE order_number LIKE ? with the marker followed by a percent sign). -/
def todaysMax (today : String) (numbers : List String) : Option String :=
  maxString? (numbers.filter (fun s => likeStartsWith ("MC-" ++ today ++ "-") s))

/-- strings.Split on a single-character separator, over the character list:
maximal runs between separator occurrences, empty runs preserved. -/
def splitOnChar (sep : Char) : List Char → List (List Char)
  | [] => [[]]
  | c :: rest =>
      let r := splitOnChar sep rest
      if c = sep then [] :: r
      else
        match r with
        | [] => [[c]]
        | g :: gs => (c :: g) :: gs

/-- Split the stored number on "-" and parse the third part when there are
exactly three parts (strings.Split followed by strconv.Atoi). -/
def trailingSeq (last : String) : Option ℤ :=
  if ((splitOnChar '-' last.data).map String.mk).length = 3 then
    goAtoi (((splitOnChar '-' last.data).map String.mk).getD 2 "")
  else none

/-- Go fmt %03d: zero-pad to width 3; the sign, when present, counts toward
the width, and wider values print unpadded. -/
def goPad3 (n : ℤ) : String :=
  if 0 ≤ n then
    let s := toString n.toNat
    if 3 ≤ s.length then s else String.mk (List.replicate (3 - s.length) '0') ++ s
  else
    let s := toString (-n).toNat
    "-" ++ (if 2 ≤ s.length then s else String.mk (List.replicate (2 - s.length) '0') ++ s)

/-- orderRepository.GenerateOrderNumber: read the greatest order number with
the date marker of today, parse its trailing sequence, add one (1 when no row
exists or the trailing part does not parse), format with %03d. The enclosing
transaction contains only this read; the order insert happens later in a
separate transaction. -/
def generateOrderNumber (today : String) (numbers : List String) : String :=
  let pre := "MC-" ++ today ++ "-"
  let sequence : ℤ :=
    match todaysMax today numbers with
    | none => 1
    | some last =>
        match trailingSeq last with
        | some seq => intAdd64 seq 1
        | none => 1
  pre ++ goPad3 sequence

/-! ## Order creation (orderService.CreateOrder and CreateGuestOrder) -/

/-- orderRepository.Create inside its transaction: the database assigns the
internal id and the uuid and stores the order together with its items. The
new row is put at the head of the table; the unique index on uuid makes the
position immaterial for lookups. -/
def insertOrder (db : Db) (o : Order) : Order × Db :=
  let o' := { o with id := db.nextOrderId, uuid := db.nextOrderId }
  (o', { db with orders := o' :: db.orders, nextOrderId := db.nextOrderId + 1 })

/-- orderService.CreateGuestOrder. storageOk models whether the order-number
generation read succeeds (Go: any non-NotFound database error); today is
time.Now() formatted 060102. Literal 0.10 is the exact rational 1/10. -/
def CreateGuestOrder (db : Db) (storageOk : Bool) (today : String)
    (req : CreateOrderRequest) : Except SvcError Order × Db :=
  match validateAndFetchProducts db.catalog req.items with
  | .error e => (.error e, db)
  | .ok validated =>
      let totals := calculateOrderTotals req.items validated.1 validated.2
      let subtotal := totals.1
      let tax := subtotal * (1 / 10)
      let total := subtotal + tax
      if storageOk then
        let orderNumber := generateOrderNumber today (db.orders.map (fun o => o.orderNumber))
        let order : Order :=
          { id := 0, uuid := 0, orderNumber := orderNumber, userID := none,
            customerName := req.customerName, status := .pending,
            orderSource := .guest, subtotal := subtotal, tax := tax,
            total := total, notes := req.notes, completedAt := none,
            items := totals.2 }
        let created := insertOrder db order
        match findOrderByUUID created.2.orders created.1.uuid with
        | some fetched => (.ok fetched, created.2)
        | none => (.error .orderNotFound, created.2)
      else
        (.error .orderNumberGenFailed, db)

/-- orderService.CreateOrder: the member variant, which first resolves the
authenticated user, then proceeds like the guest variant with the member
source and the owning user set. -/
def CreateOrder (db : Db) (storageOk : Bool) (today : String) (userUUID : Nat)
    (req : CreateOrderRequest) : Except SvcError Order × Db :=
  match findUserByUUID db.users userUUID with
  | none => (.error .userNotFound, db)
  | some user =>
      match validateAndFetchProducts db.catalog req.items with
      | .error e => (.error e, db)
      | .ok validated =>
          let totals := calculateOrderTotals req.items validated.1 validated.2
          let subtotal := totals.1
          let tax := subtotal * (1 / 10)
          let total := subtotal + tax
          if storageOk then
            let orderNumber := generateOrderNumber today (db.orders.map (fun o => o.orderNumber))
            let order : Order :=
              { id := 0, uuid := 0, orderNumber := orderNumber, userID := some user.id,
                customerName := req.customerName, status := .pending,
                orderSource := .member, subtotal := subtotal, tax := tax,
                total := total, notes := req.notes, completedAt := none,
                items := totals.2 }
            let created := insertOrder db order
            match findOrderByUUID created.2.orders created.1.uuid with
            | some fetched => (.ok fetched, created.2)
            | none => (.error .orderNotFound, created.2)
          else
            (.error .orderNumberGenFailed, db)

/-- The read-only phase of CreateGuestOrder: validation, totals and the
order-number generation transaction. No write occurs in this phase; the
insert runs later in its own transaction. -/
def createGuestOrderPhase1 (db : Db) (today : String) (req : CreateOrderRequest) :
    Except SvcError Order :=
  match validateAndFetchProducts db.catalog req.items with
  | .error e => .error e
  | .ok validated =>
      let totals := calculateOrderTotals req.items validated.1 validated.2
      let subtotal := totals.1
      let tax := subtotal * (1 / 10)
      .ok
        { id := 0, uuid := 0,
          orderNumber := generateOrderNumber today (db.orders.map (fun o => o.orderNumber)),
          userID := none, customerName := req.customerName, status := .pending,
          orderSource := .guest, subtotal := subtotal, tax := tax,
          total := subtotal + tax, notes := req.notes, completedAt := none,
          items := totals.2 }

/-- Two guest-order creations under an overlapping schedule: both read-only
phases (including both order-number generation transactions) commit against
the same initial store before either insert transaction starts. -/
def twoGuestOrdersInterleaved (db : Db) (today : String)
    (req1 req2 : CreateOrderRequest) :
    Except SvcError Order × Except SvcError Order × Db :=
  match createGuestOrderPhase1 db today req1, createGuestOrderPhase1 db today req2 with
  | .ok o1, .ok o2 =>
      let c1 := insertOrder db o1
      let c2 := insertOrder c1.2 o2
      (.ok c1.1, .ok c2.1, c2.2)
  | .error e1, .ok o2 =>
      let c2 := insertOrder db o2
      (.error e1, .ok c2.1, c2.2)
  | .ok o1, .error e2 =>
      let c1 := insertOrder db o1
      (.ok o1, .error e2, c1.2)
  | .error e1, .error e2 => (.error e1, .error e2, db)

/-- Two guest-order creations run strictly one after the other (the serialized
schedule the spec requires). -/
def twoGuestOrdersSequential (db : Db) (today : String)
    (req1 req2 : CreateOrderRequest) :
    Except SvcError Order × Except SvcError Order × Db :=
  let r1 := CreateGuestOrder db true today req1
  let r2 := CreateGuestOrder r1.2 true today req2
  (r1.1, r2.1, r2.2)

/-! ## Payment service -/

/-- Configuration and ambient collaborators of the payment service: the
gateway server key, the SHA-512 hex digest (crypto/sha512 plus
hex.EncodeToString, an external library whose mathematical content is kept
abstract), the datetime parser (time.Parse with layout 2006-01-02 15:04:05)
and the current instant (time.Now()). -/
structure GatewayCfg where
  serverKey : String
  sha512hex : String → String
  parseTime : String → Option Nat
  now : Nat

/-- paymentService.VerifySignature: the hex-encoded SHA-512 digest of
order_id concatenated with status_code, gross_amount and the server key,
compared with the supplied signature key. -/
def VerifySignature (cfg : GatewayCfg)
    (orderID statusCode grossAmount signatureKey : String) : Bool :=
  cfg.sha512hex (orderID ++ statusCode ++ grossAmount ++ cfg.serverKey) == signatureKey

/-- Numeric value of a digit run. -/
def decimalDigitsVal (ds : List Char) : Nat :=
  ds.foldl (fun acc c => acc * 10 + (c.toNat - '0'.toNat)) 0

/-- strconv.ParseFloat restricted to plain decimal notation (optional sign,
integer digits, optional fractional digits), the shape of the gateway
gross_amount field; parsed exactly into a rational. -/
def parseDecimal (s : String) : Option Money :=
  let signParsed : Money × List Char :=
    match s.data with
    | '+' :: rest => (1, rest)
    | '-' :: rest => (-1, rest)
    | rest => (1, rest)
  let intPart := signParsed.2.takeWhile Char.isDigit
  let rest := signParsed.2.dropWhile Char.isDigit
  match rest with
  | [] =>
      if intPart = [] then none
      else some (signParsed.1 * (decimalDigitsVal intPart : Money))
  | '.' :: fracPart =>
      if fracPart.all Char.isDigit ∧ (intPart ≠ [] ∨ fracPart ≠ []) then
        some (signParsed.1 *
          ((decimalDigitsVal intPart : Money) +
            (decimalDigitsVal fracPart : Money) / (10 : Money) ^ fracPart.length))
      else none
  | _ => none

/-- Step 4 of ProcessWebhookNotification: copy the notification fields onto
the payment row; an unparsable transaction time falls back to now, an
unparsable or absent settlement time leaves the stored value unchanged, and
the raw payload is stored as the metadata blob. -/
def applyNotificationToPayment (cfg : GatewayCfg) (p : Payment)
    (n : MidtransNotification) : Payment :=
  let transactionTime :=
    match cfg.parseTime n.transactionTime with
    | some t => t
    | none => cfg.now
  let base :=
    { p with
      transactionID := some n.transactionID,
      transactionStatus := some n.transactionStatus,
      paymentType := some n.paymentType,
      transactionTime := some transactionTime,
      statusMessage := some n.statusMessage,
      fraudStatus := some n.fraudStatus,
      paymentMetadata := some n }
  match n.settlementTime with
  | some st =>
      if st ≠ "" then
        match cfg.parseTime st with
        | some t => { base with settlementTime := some t }
        | none => base
      else base
  | none => base

/-- The switch over the gateway transaction status in
ProcessWebhookNotification: the order status to write, when any. settlement
maps to preparing; expire, cancel and deny map to cancelled; pending and
every other value cause no write. -/
def orderActionFor (ts : String) : Option OrderStatus :=
  if ts == "settlement" then some .preparing
  else if ts == "pending" then none
  else if ts == "expire" || ts == "cancel" || ts == "deny" then some .cancelled
  else none

/-- paymentRepository.Update (gorm Save by primary key). -/
def updatePaymentList (payments : List Payment) (p' : Payment) : List Payment :=
  payments.map (fun q => if q.id == p'.id then p' else q)

/-- paymentService.ProcessWebhookNotification: verify the signature first,
then resolve the payment by the gateway-facing order id, check the gross
amount for exact equality, persist the notification fields onto the payment,
and finally write the mapped order status directly through
orderRepository.UpdateStatus when the switch selects one and the preloaded
order reference resolves. -/
def ProcessWebhookNotification (cfg : GatewayCfg) (db : Db)
    (n : MidtransNotification) : Except SvcError Unit × Db :=
  if !(VerifySignature cfg n.orderID n.statusCode n.grossAmount n.signatureKey) then
    (.error .invalidSignature, db)
  else
    match findPaymentByMidtransOrderID db.payments n.orderID with
    | none => (.error .paymentNotFound, db)
    | some payment =>
        match parseDecimal n.grossAmount with
        | none => (.error .invalidAmount, db)
        | some grossAmount =>
            if grossAmount ≠ payment.grossAmount then
              (.error .invalidAmount, db)
            else
              let payment' := applyNotificationToPayment cfg payment n
              let db1 := { db with payments := updatePaymentList db.payments payment' }
              match orderActionFor n.transactionStatus with
              | some newStatus =>
                  if (findOrderByID db1.orders payment'.orderID).isSome then
                    (.ok (), { db1 with
                      orders := updateStatusList db1.orders payment'.orderID newStatus cfg.now })
                  else
                    (.ok (), db1)
              | none => (.ok (), db1)

/-! ## Claim-side reference definitions

These definitions follow the words of the spec and of the claims, for
comparison against the source-translated functions above. -/

/-- Claim C10 wording: the customization selections of the last line item of
the cart referencing the given product. -/
def claimLastSelections (items : List CreateOrderItemRequest) (pid : Nat) :
    List OrderItemCustomization :=
  match (items.filter (fun it => it.productID == pid)).getLast? with
  | some item => item.customizations
  | none => []

/-- Claim C10 wording: the unit price predicted by the claim, namely the base
price of the product of the line plus the modifiers of the customization set
of the LAST line item referencing that product, each selected id counted
once. -/
def claimPredictedUnitPrice (cat : Catalog) (items : List CreateOrderItemRequest)
    (item : CreateOrderItemRequest) : Money :=
  match findProductByUUID cat item.productID with
  | none => 0
  | some product =>
      let ids := ((claimLastSelections items item.productID).map
        (fun c => c.customizationID)).dedup
      product.basePrice +
        (ids.map (fun cid =>
          match findCustomizationByUUID cat cid with
          | some c => c.priceModifier
          | none => 0)).sum

/-- Amended C10 reference: the customization map the code actually keeps for a
product, namely the one built from the last line item referencing the product
that carries a nonempty selection list (lines with empty selections do not
reset the entry). -/
def lastCustomMapSpec (cat : Catalog) (items : List CreateOrderItemRequest) (pid : Nat) :
    Option (List (Nat × ProductCustomization)) :=
  match items with
  | [] => none
  | item :: rest =>
      match lastCustomMapSpec cat rest pid with
      | some m => some m
      | none =>
          if item.productID = pid ∧ item.customizations ≠ [] then
            match findProductByUUID cat item.productID with
            | some product => okValue (buildCustomMap cat product item.customizations [])
            | none => none
          else none

/-- Sum of price modifiers of an optional stored customization map. -/
def modSum : Option (List (Nat × ProductCustomization)) → Money
  | none => 0
  | some m => (m.map (fun kc => kc.2.priceModifier)).sum

/-- Left-biased choice on options, written out. -/
def orElseO {α : Type} : Option α → Option α → Option α
  | some x, _ => some x
  | none, b => b

/-- Map the quantity of every line item through f (all other fields kept). -/
def mapQuantities (f : Int → Int) (items : List CreateOrderItemRequest) :
    List CreateOrderItemRequest :=
  items.map (fun it => { it with quantity := f it.quantity })

/-! ## Fixtures for witnesses and counterexamples -/

/-- A pending order in a one-order store, used to witness C2. -/
def c2Order : Order :=
  { id := 1, uuid := 101, orderNumber := "MC-251011-001", userID := none,
    customerName := "Ayu", status := .pending, orderSource := .guest,
    subtotal := 90000, tax := 9000, total := 99000, notes := none,
    completedAt := none, items := [] }

/-- Database fixture for the C2 witness. -/
def c2Db : Db :=
  { users := [], catalog := ⟨[], []⟩, orders := [c2Order], payments := [], nextOrderId := 2 }

/-- A cheap product whose subtotal is not a multiple of ten, for C1. -/
def c1Product : Product :=
  { id := 1, uuid := 11, name := "Mini", basePrice := 5, isAvailable := true,
    isCustomizable := false, deleted := false }

/-- Database fixture for C1 (one member user, one product, empty orders). -/
def c1Db : Db :=
  { users := [{ id := 4, uuid := 501 }], catalog := ⟨[c1Product], []⟩,
    orders := [], payments := [], nextOrderId := 1 }

/-- One-line cart buying the cheap product, for C1. -/
def c1Req : CreateOrderRequest :=
  { customerName := "Sari", notes := none,
    items := [{ productID := 11, quantity := 1, notes := none, customizations := [] }] }

/-- The guest order CreateGuestOrder produces from c1Db and c1Req. -/
def c1GuestOrder : Order :=
  { id := 1, uuid := 1, orderNumber := "MC-251011-001", userID := none,
    customerName := "Sari", status := .pending, orderSource := .guest,
    subtotal := 5, tax := 1 / 2, total := 5 + 1 / 2, notes := none,
    completedAt := none,
    items := [{ productID := some 1, productName := "Mini", quantity := 1,
                unitPrice := 5, subtotal := 5, notes := none, customizations := [] }] }

/-- The member order CreateOrder produces from c1Db, user 501 and c1Req. -/
def c1MemberOrder : Order :=
  { c1GuestOrder with userID := some 4, orderSource := .member }

/-- Standard product fixture: the spec scenario A Matcha Latte. -/
def matchaP : Product :=
  { id := 1, uuid := 11, name := "Matcha Latte", basePrice := 45000,
    isAvailable := true, isCustomizable := true, deleted := false }

/-- Database fixture with the Matcha Latte, used by C5 and C8. -/
def c5Db : Db :=
  { users := [], catalog := ⟨[matchaP], []⟩, orders := [], payments := [], nextOrderId := 1 }

/-- One-line valid cart for the Matcha Latte, used by C5 and C8. -/
def c5Req : CreateOrderRequest :=
  { customerName := "Budi", notes := none,
    items := [{ productID := 11, quantity := 2, notes := none, customizations := [] }] }

/-- An unavailable product, for the C6 witness. -/
def c6Product : Product :=
  { id := 2, uuid := 12, name := "Sold Out Latte", basePrice := 30000,
    isAvailable := false, isCustomizable := false, deleted := false }

/-- Database fixture for C6 (one member user, one unavailable product). -/
def c6Db : Db :=
  { users := [{ id := 4, uuid := 501 }], catalog := ⟨[c6Product], []⟩,
    orders := [], payments := [], nextOrderId := 1 }

/-- Cart referencing the unavailable product, for C6. -/
def c6Req : CreateOrderRequest :=
  { customerName := "Tono", notes := none,
    items := [{ productID := 12, quantity := 1, notes := none, customizations := [] }] }

/-- Available product for the C7 zero-quantity counterexample. -/
def c7Product : Product :=
  { id := 3, uuid := 13, name := "Hojicha", basePrice := 100, isAvailable := true,
    isCustomizable := false, deleted := false }

/-- Catalog fixture for C7. -/
def c7Cat : Catalog := ⟨[c7Product], []⟩

/-- Database fixture for C7. -/
def c7Db : Db :=
  { users := [], catalog := c7Cat, orders := [], payments := [], nextOrderId := 1 }

/-- Cart whose single line carries quantity zero, for C7. -/
def c7Req : CreateOrderRequest :=
  { customerName := "Rina", notes := none,
    items := [{ productID := 13, quantity := 0, notes := none, customizations := [] }] }

/-- Customizable product used by the C10 fixtures. -/
def c10Product : Product :=
  { id := 1, uuid := 11, name := "Latte", basePrice := 100, isAvailable := true,
    isCustomizable := true, deleted := false }

/-- A customization of the C10 product. -/
def c10Custom : ProductCustomization :=
  { uuid := 21, productID := 1, customizationType := "size", optionName := "Large",
    priceModifier := 50 }

/-- Catalog fixture for C10. -/
def c10Cat : Catalog := ⟨[c10Product], [c10Custom]⟩

/-- First line of the C10 cart: the product with the Large customization. -/
def c10Item1 : CreateOrderItemRequest :=
  { productID := 11, quantity := 1, notes := none,
    customizations := [{ customizationID := 21, optionName := "Large" }] }

/-- Second line of the C10 cart: the same product with no selections. -/
def c10Item2 : CreateOrderItemRequest :=
  { productID := 11, quantity := 1, notes := none, customizations := [] }

/-- The C10 cart: the same product twice, first with a selection, then bare. -/
def c10Req : CreateOrderRequest :=
  { customerName := "Dewi", notes := none, items := [c10Item1, c10Item2] }

/-- Database fixture for C10. -/
def c10Db : Db :=
  { users := [], catalog := c10Cat, orders := [], payments := [], nextOrderId := 1 }

/-- The products map validateAndFetchProducts builds from the C10 cart. -/
def c10PsV : List (Nat × Product) := [(11, c10Product)]

/-- The customizations map validateAndFetchProducts builds from the C10 cart:
the entry of line one survives because line two carries no selections. -/
def c10CsV : List (Nat × (List (Nat × ProductCustomization))) :=
  [(11, [(21, c10Custom)])]

/-- Gateway fixture: a concrete (abstract) digest function tags its input. -/
def pwCfg : GatewayCfg :=
  { serverKey := "sk", sha512hex := fun s => "sig:" ++ s,
    parseTime := fun _ => none, now := 42 }

/-- A pending order awaiting payment, used by the payment fixtures. -/
def pwOrder : Order :=
  { id := 7, uuid := 107, orderNumber := "MC-251011-001", userID := none,
    customerName := "Ayu", status := .pending, orderSource := .guest,
    subtotal := 90000, tax := 9000, total := 99000, notes := none,
    completedAt := none, items := [] }

/-- The stored payment attempt for pwOrder. -/
def pwPayment : Payment :=
  { id := 3, orderID := 7, midtransOrderID := "MC-251011-001-1760000000",
    grossAmount := 99000, transactionID := none, transactionStatus := none,
    paymentType := none, transactionTime := none, settlementTime := none,
    fraudStatus := none, statusMessage := none, paymentMetadata := none }

/-- Database fixture for the webhook claims: pending order plus payment. -/
def pwDb : Db :=
  { users := [], catalog := ⟨[], []⟩, orders := [pwOrder], payments := [pwPayment],
    nextOrderId := 8 }

/-- Database fixture for the C9 redelivery witness: the order is already in
preparing when the settlement notification arrives again. -/
def pw9Db : Db :=
  { users := [], catalog := ⟨[], []⟩,
    orders := [{ pwOrder with status := .preparing }], payments := [pwPayment],
    nextOrderId := 8 }

/-- A correctly signed settlement notification for pwPayment. -/
def pwNote : MidtransNotification :=
  { transactionTime := "2025-10-11 10:00:00", transactionStatus := "settlement",
    transactionID := "tx-1", statusMessage := "ok", statusCode := "200",
    signatureKey := "sig:" ++ "MC-251011-001-1760000000" ++ "200" ++ "99000.00" ++ "sk",
    paymentType := "qris", orderID := "MC-251011-001-1760000000",
    grossAmount := "99000.00", fraudStatus := "accept", settlementTime := none }

/-- The same notification with a tampered signature, for C3. -/
def c3Note : MidtransNotification :=
  { pwNote with signatureKey := "tampered" }

/-! # Theorems -/

/-! ## General lemmas about the Go map and table lookups -/

theorem goFind?_goInsert {β : Type} (m : List (Nat × β)) (k : Nat) (v : β) (k' : Nat) :
    goFind? (goInsert m k v) k' = if k = k' then some v else goFind? m k' := by
  induction m with
  | nil => simp [goInsert, goFind?]
  | cons hd tl ih =>
      obtain ⟨k₁, v₁⟩ := hd
      by_cases h1 : k₁ = k
      · subst h1
        by_cases h2 : k₁ = k'
        · subst h2; simp [goInsert, goFind?]
        · simp [goInsert, goFind?, h2]
      · by_cases h2 : k₁ = k'
        · subst h2
          have hkk : ¬ (k = k₁) := fun h => h1 h.symm
          simp [goInsert, goFind?, h1, hkk]
        · simp [goInsert, goFind?, h1, h2, ih]

theorem firstRow_map {α : Type} (f : α → α) (p : α → Bool)
    (hf : ∀ x, p (f x) = p x) (l : List α) :
    firstRow p (l.map f) = (firstRow p l).map f := by
  induction l with
  | nil => rfl
  | cons hd tl ih =>
      by_cases h : p hd = true
      · simp [firstRow, hf, h]
      · simp [firstRow, hf, h, ih]

theorem firstRow_some_pred {α : Type} (p : α → Bool) (l : List α) (x : α)
    (h : firstRow p l = some x) : p x = true := by
  induction l with
  | nil => simp [firstRow] at h
  | cons hd tl ih =>
      by_cases hp : p hd = true
      · simp [firstRow, hp] at h; cases h; exact hp
      · simp [firstRow, hp] at h; exact ih h

/-! ## Lemmas about the state machine embedding -/

theorem isValidStatusTransition_iff_mem (c t : OrderStatus) :
    isValidStatusTransition c t = true ↔ t ∈ allowedSuccessors c := by
  cases c <;> cases t <;> decide

theorem findOrderByUUID_updateStatusList (orders : List Order) (oid : Nat)
    (st : OrderStatus) (now u : Nat) :
    findOrderByUUID (updateStatusList orders oid st now) u
      = (findOrderByUUID orders u).map
          (fun o => if o.id == oid then applyStatus o st now else o) :=
  firstRow_map _ _
    (fun o => by by_cases h : (o.id == oid) = true <;> simp [h, applyStatus]) orders

theorem findOrderByID_updateStatusList (orders : List Order) (oid : Nat)
    (st : OrderStatus) (now : Nat) :
    findOrderByID (updateStatusList orders oid st now) oid
      = (findOrderByID orders oid).map
          (fun o => if o.id == oid then applyStatus o st now else o) :=
  firstRow_map _ _
    (fun o => by by_cases h : (o.id == oid) = true <;> simp [h, applyStatus]) orders

/-! ## Lemmas about pricing -/

theorem calculateOrderTotals_foldl (ps : List (Nat × Product))
    (cs : List (Nat × (List (Nat × ProductCustomization))))
    (items : List CreateOrderItemRequest) (a : Money) (l : List OrderItem) :
    items.foldl
        (fun acc item =>
          let oi := lineOrderItem ps cs item
          (acc.1 + oi.subtotal, acc.2 ++ [oi])) (a, l)
      = (a + (items.map (fun it => (lineOrderItem ps cs it).subtotal)).sum,
         l ++ items.map (lineOrderItem ps cs)) := by
  induction items generalizing a l with
  | nil => simp
  | cons hd tl ih => simp [ih, add_assoc]

theorem calculateOrderTotals_eq (items : List CreateOrderItemRequest)
    (ps : List (Nat × Product))
    (cs : List (Nat × (List (Nat × ProductCustomization)))) :
    calculateOrderTotals items ps cs
      = ((items.map (fun it => (lineOrderItem ps cs it).subtotal)).sum,
         items.map (lineOrderItem ps cs)) := by
  unfold calculateOrderTotals
  rw [calculateOrderTotals_foldl]
  simp

/-! ## C2: the status transition contract -/

/-- C2: UpdateOrderStatus(order, target) succeeds exactly when target is in
the allowed-successor set of the freshly-read current status of the order
(pending to preparing or cancelled, preparing to ready, ready to completed;
completed and cancelled have no successors, and current equals target is
never allowed because no status is its own successor); in every other case it
fails with InvalidStatusTransition and the database is left unchanged. -/
theorem C2_update_order_status (db : Db) (now orderUUID : Nat) (target : OrderStatus)
    (o : Order) (h : findOrderByUUID db.orders orderUUID = some o) :
    (isOkE (UpdateOrderStatus db now orderUUID target).1 = true
      ↔ target ∈ allowedSuccessors o.status)
    ∧ (target ∉ allowedSuccessors o.status →
        UpdateOrderStatus db now orderUUID target = (.error .invalidStatusTransition, db))
    ∧ (∀ s : OrderStatus, s ∉ allowedSuccessors s) := by
  have hval := isValidStatusTransition_iff_mem o.status target
  refine ⟨?_, ?_, ?_⟩
  · by_cases hv : isValidStatusTransition o.status target = true
    · have hmem := hval.mp hv
      simp only [UpdateOrderStatus, h, hv, if_true]
      rw [findOrderByUUID_updateStatusList, h]
      simp [isOkE, hmem]
    · have hmem : target ∉ allowedSuccessors o.status := fun hm => hv (hval.mpr hm)
      simp only [UpdateOrderStatus, h]
      simp [hv, isOkE, hmem]
  · intro hmem
    have hv : isValidStatusTransition o.status target = false := by
      rcases Bool.eq_false_or_eq_true (isValidStatusTransition o.status target) with h' | h'
      · exact absurd (hval.mp h') hmem
      · exact h'
    simp [UpdateOrderStatus, h, hv]
  · intro s; cases s <;> decide

theorem C2_update_order_status_witness :
    isOkE (UpdateOrderStatus c2Db 5 101 .preparing).1 = true
    ∧ UpdateOrderStatus c2Db 5 101 .ready = (.error .invalidStatusTransition, c2Db) :=
  ⟨((C2_update_order_status c2Db 5 101 .preparing c2Order rfl).1).mpr (by decide),
   (C2_update_order_status c2Db 5 101 .ready c2Order rfl).2.1 (by decide)⟩

/-! ## C1: order totals -/

theorem half_not_integral (z : ℤ) : (1 / 2 : Money) ≠ (z : Money) := by
  intro h
  have h2 : (1 : ℚ) = 2 * (z : ℚ) := by
    calc (1 : ℚ) = 2 * (1 / 2 : ℚ) := by norm_num
    _ = 2 * (z : ℚ) := by rw [h]
  have h3 : (1 : ℤ) = 2 * z := by exact_mod_cast h2
  omega

/-- C1 counterexample: the code computes tax as subtotal * 0.10 with no
rounding. On the one-line cart c1Req (one unit of a product priced 5) the
guest order is created with subtotal 5 and tax 1/2; since 1/2 is not an
integer it differs from round(subtotal * 0.10) = round(1/2), so the claimed
equation tax == round(subtotal * 0.10) fails on this valid cart. -/
theorem C1_tax_rounding_counterexample :
    (okValue (CreateGuestOrder c1Db true "251011" c1Req).1).map Order.tax
        = some (1 / 2 : Money)
    ∧ (okValue (CreateGuestOrder c1Db true "251011" c1Req).1).map Order.subtotal
        = some (5 : Money)
    ∧ (1 / 2 : Money) ≠ ((round ((5 : Money) * (1 / 10)) : ℤ) : Money) :=
  ⟨by with_unfolding_all rfl, by with_unfolding_all rfl, half_not_integral _⟩

/-- C1 amended: for every order returned by CreateOrder or CreateGuestOrder,
total = subtotal + tax and tax = subtotal * 0.10 EXACTLY, with no rounding
applied; both are computed once at creation time. -/
theorem C1_totals_amended (db : Db) (storageOk : Bool) (today : String)
    (userUUID : Nat) (req : CreateOrderRequest) (o o' : Order)
    (hg : (CreateGuestOrder db storageOk today req).1 = .ok o)
    (hm : (CreateOrder db storageOk today userUUID req).1 = .ok o') :
    (o.total = o.subtotal + o.tax ∧ o.tax = o.subtotal * (1 / 10))
    ∧ (o'.total = o'.subtotal + o'.tax ∧ o'.tax = o'.subtotal * (1 / 10)) := by
  constructor
  · cases hv : validateAndFetchProducts db.catalog req.items with
    | error e => simp [CreateGuestOrder, hv] at hg
    | ok validated =>
        cases storageOk with
        | false => simp [CreateGuestOrder, hv] at hg
        | true =>
            simp only [CreateGuestOrder, hv] at hg
            simp [insertOrder, findOrderByUUID, firstRow] at hg
            cases hg
            exact ⟨rfl, by rw [one_div]⟩
  · cases hu : findUserByUUID db.users userUUID with
    | none => simp [CreateOrder, hu] at hm
    | some user =>
        cases hv : validateAndFetchProducts db.catalog req.items with
        | error e => simp [CreateOrder, hu, hv] at hm
        | ok validated =>
            cases storageOk with
            | false => simp [CreateOrder, hu, hv] at hm
            | true =>
                simp only [CreateOrder, hu, hv] at hm
                simp [insertOrder, findOrderByUUID, firstRow] at hm
                cases hm
                exact ⟨rfl, by rw [one_div]⟩

theorem C1_totals_amended_witness :
    (c1GuestOrder.total = c1GuestOrder.subtotal + c1GuestOrder.tax
      ∧ c1GuestOrder.tax = c1GuestOrder.subtotal * (1 / 10))
    ∧ (c1MemberOrder.total = c1MemberOrder.subtotal + c1MemberOrder.tax
      ∧ c1MemberOrder.tax = c1MemberOrder.subtotal * (1 / 10)) :=
  C1_totals_amended c1Db true "251011" 501 c1Req c1GuestOrder c1MemberOrder
    (by with_unfolding_all rfl) (by with_unfolding_all rfl)

/-! ## C5: order number generation -/

theorem goAtoiRange_bounds (w v : ℤ) (h : goAtoiRange w = some v) :
    -(2 ^ 63) ≤ v ∧ v ≤ 2 ^ 63 - 1 := by
  unfold goAtoiRange at h
  split at h
  · exact absurd h (by simp)
  · rename_i hrange
    cases h
    omega

theorem goAtoiCore_bounds (sign : ℤ) (digits : List Char) (v : ℤ)
    (h : goAtoiCore sign digits = some v) : -(2 ^ 63) ≤ v ∧ v ≤ 2 ^ 63 - 1 := by
  unfold goAtoiCore at h
  split at h
  · exact absurd h (by simp)
  · split at h
    · exact goAtoiRange_bounds _ _ h
    · exact absurd h (by simp)

theorem goAtoi_bounds (s : String) (v : ℤ) (h : goAtoi s = some v) :
    -(2 ^ 63) ≤ v ∧ v ≤ 2 ^ 63 - 1 := by
  unfold goAtoi at h
  split at h <;> exact goAtoiCore_bounds _ _ _ h

theorem intAdd64_eq (a b : ℤ) (h1 : -(2 ^ 63) ≤ a + b) (h2 : a + b ≤ 2 ^ 63 - 1) :
    intAdd64 a b = a + b := by
  unfold intAdd64
  have hm : (a + b + 2 ^ 63) % 2 ^ 64 = a + b + 2 ^ 63 :=
    Int.emod_eq_of_lt (by omega) (by omega)
  omega

/-- C5: GenerateOrderNumber returns the MC-YYMMDD- date marker of today
followed by the padded sequence: 001 when no existing order number shares the
marker; otherwise one more than the parsed trailing sequence of the
lexicographically greatest such number, zero-padded to three digits (goPad3
widens beyond 999). On a storage failure the creation call fails with
OrderNumberGenerationFailed and the database is unchanged, so no order is
persisted without a number. -/
theorem C5_generate_order_number (today : String) (numbers : List String)
    (m : String) (k : ℤ) (db : Db) (req : CreateOrderRequest) :
    (todaysMax today numbers = none →
      generateOrderNumber today numbers = "MC-" ++ today ++ "-" ++ "001")
    ∧ (todaysMax today numbers = some m → trailingSeq m = some k → k ≤ 2 ^ 63 - 2 →
      generateOrderNumber today numbers = "MC-" ++ today ++ "-" ++ goPad3 (k + 1))
    ∧ (CreateGuestOrder db false today req).2 = db
    ∧ (isOkE (validateAndFetchProducts db.catalog req.items) = true →
      (CreateGuestOrder db false today req).1 = .error .orderNumberGenFailed) := by
  refine ⟨?_, ?_, ?_, ?_⟩
  · intro h
    have h001 : goPad3 1 = "001" := by decide
    simp [generateOrderNumber, h, h001]
  · intro h1 h2 hk
    have h2' := h2
    unfold trailingSeq at h2'
    split at h2'
    · obtain ⟨hlo, hhi⟩ := goAtoi_bounds _ _ h2'
      have hadd : intAdd64 k 1 = k + 1 := intAdd64_eq k 1 (by omega) (by omega)
      simp [generateOrderNumber, h1, h2, hadd]
    · exact absurd h2' (by simp)
  · cases hv : validateAndFetchProducts db.catalog req.items <;>
      simp [CreateGuestOrder, hv]
  · intro hok
    cases hv : validateAndFetchProducts db.catalog req.items with
    | error e => rw [hv] at hok; simp [isOkE] at hok
    | ok validated => simp [CreateGuestOrder, hv]

theorem C5_generate_order_number_witness :
    generateOrderNumber "251011" ["MC-251011-004", "MC-251010-009"]
        = "MC-" ++ "251011" ++ "-" ++ goPad3 (4 + 1)
    ∧ (CreateGuestOrder c5Db false "251011" c5Req).1 = .error .orderNumberGenFailed :=
  have h := C5_generate_order_number "251011" ["MC-251011-004", "MC-251010-009"]
    "MC-251011-004" 4 c5Db c5Req
  ⟨h.2.1 (by decide) (by decide) (by decide), h.2.2.2 (by with_unfolding_all rfl)⟩

/-! ## C6: validation failures have no side effects -/

theorem buildCustomMap_error_class (cat : Catalog) (product : Product)
    (reqs : List OrderItemCustomization) (acc : List (Nat × ProductCustomization))
    (e : SvcError) (h : buildCustomMap cat product reqs acc = .error e) :
    isValidationError e = true := by
  induction reqs generalizing acc with
  | nil => simp [buildCustomMap] at h
  | cons c rest ih =>
      simp only [buildCustomMap] at h
      cases hf : findCustomizationByUUID cat c.customizationID with
      | none =>
          rw [hf] at h
          injection h with h1
          subst h1
          rfl
      | some custom =>
          simp only [hf] at h
          by_cases hb : custom.productID = product.id
          · rw [if_neg (not_not_intro hb)] at h
            exact ih _ h
          · rw [if_pos hb] at h
            injection h with h1
            subst h1
            rfl

theorem validateLoop_error_class (cat : Catalog) (items : List CreateOrderItemRequest)
    (ps : List (Nat × Product)) (cs : List (Nat × (List (Nat × ProductCustomization))))
    (e : SvcError) (h : validateLoop cat items ps cs = .error e) :
    isValidationError e = true := by
  induction items generalizing ps cs with
  | nil => simp [validateLoop] at h
  | cons item rest ih =>
      simp only [validateLoop] at h
      cases hp : findProductByUUID cat item.productID with
      | none =>
          rw [hp] at h
          injection h with h1
          subst h1
          rfl
      | some product =>
          rw [hp] at h
          cases hav : product.isAvailable with
          | false =>
              simp only [hav, Bool.not_false, if_true] at h
              injection h with h1
              subst h1
              rfl
          | true =>
              simp only [hav, Bool.not_true, Bool.false_eq_true, if_false] at h
              by_cases hlen : item.customizations.length > 0
              · simp only [hlen, if_true] at h
                cases hcz : product.isCustomizable with
                | false =>
                    simp only [hcz, Bool.not_false, if_true] at h
                    injection h with h1
                    subst h1
                    rfl
                | true =>
                    simp only [hcz, Bool.not_true, Bool.false_eq_true, if_false] at h
                    cases hb : buildCustomMap cat product item.customizations [] with
                    | error e' =>
                        rw [hb] at h
                        injection h with h1
                        subst h1
                        exact buildCustomMap_error_class _ _ _ _ _ hb
                    | ok customMap =>
                        rw [hb] at h
                        exact ih _ _ h
              · simp only [hlen, if_false] at h
                exact ih _ _ h

/-- C6: whenever cart validation fails (missing or soft-deleted product,
unavailable product, selections on a non-customizable product, missing
customization, or a customization owned by a different product), CreateOrder
and CreateGuestOrder return exactly the validation error, the database is
unchanged (no Order, no Order Item), and in particular no order number is
consumed; the error is always one of the five validation classes. -/
theorem C6_validation_failures_no_side_effects (db : Db) (storageOk : Bool)
    (today : String) (userUUID : Nat) (req : CreateOrderRequest) (user : User)
    (e : SvcError)
    (hu : findUserByUUID db.users userUUID = some user)
    (hv : validateAndFetchProducts db.catalog req.items = .error e) :
    CreateOrder db storageOk today userUUID req = (.error e, db)
    ∧ CreateGuestOrder db storageOk today req = (.error e, db)
    ∧ isValidationError e = true := by
  refine ⟨?_, ?_, validateLoop_error_class _ _ _ _ _ hv⟩
  · simp [CreateOrder, hu, hv]
  · simp [CreateGuestOrder, hv]

theorem C6_validation_failures_no_side_effects_witness :
    CreateOrder c6Db true "251011" 501 c6Req
        = (.error (.productNotAvailable "Sold Out Latte"), c6Db)
    ∧ CreateGuestOrder c6Db true "251011" c6Req
        = (.error (.productNotAvailable "Sold Out Latte"), c6Db) :=
  have h := C6_validation_failures_no_side_effects c6Db true "251011" 501 c6Req
    { id := 4, uuid := 501 } (.productNotAvailable "Sold Out Latte")
    (by with_unfolding_all rfl) (by with_unfolding_all rfl)
  ⟨h.1, h.2.1⟩

/-! ## C7: quantities are not checked by the validator -/

/-- C7 counterexample: the cart c7Req carries a single line with quantity 0,
yet CreateGuestOrder succeeds and produces an order, so the claimed defensive
rejection of zero or negative quantities does not exist in the code. -/
theorem C7_zero_quantity_counterexample :
    isOkE (CreateGuestOrder c7Db true "251011" c7Req).1 = true
    ∧ c7Req.items.map (fun it => it.quantity) = [0] := by
  refine ⟨?_, ?_⟩ <;> with_unfolding_all rfl

theorem validateLoop_mapQuantities (cat : Catalog) (items : List CreateOrderItemRequest)
    (f : Int → Int) (ps : List (Nat × Product))
    (cs : List (Nat × (List (Nat × ProductCustomization)))) :
    validateLoop cat (mapQuantities f items) ps cs = validateLoop cat items ps cs := by
  induction items generalizing ps cs with
  | nil => rfl
  | cons item rest ih =>
      show validateLoop cat
          ({ item with quantity := f item.quantity } :: mapQuantities f rest) ps cs = _
      simp only [validateLoop]
      cases hp : findProductByUUID cat item.productID with
      | none => rfl
      | some product =>
          cases hav : product.isAvailable with
          | false => simp [hav]
          | true =>
              simp only [hav, Bool.not_true, Bool.false_eq_true, if_false]
              by_cases hlen : item.customizations.length > 0
              · simp only [hlen, if_true]
                cases hcz : product.isCustomizable with
                | false => simp [hcz]
                | true =>
                    simp only [hcz, Bool.not_true, Bool.false_eq_true, if_false]
                    cases hb : buildCustomMap cat product item.customizations [] with
                    | error e' => rfl
                    | ok customMap => exact ih _ _
              · simp only [hlen, if_false]
                exact ih _ _

/-- C7 amended: the Pricing and Cart Validator performs no quantity check at
all: rewriting every quantity of a cart (for example to zero or a negative
value) leaves the validation outcome unchanged, and every priced line simply
keeps subtotal = unit price times quantity. The only 1..100 quantity guard is
the DTO struct-tag validation in the HTTP handler, outside CreateOrder and
CreateGuestOrder. -/
theorem C7_quantity_unchecked_amended (cat : Catalog)
    (items : List CreateOrderItemRequest) (f : Int → Int)
    (ps : List (Nat × Product))
    (cs : List (Nat × (List (Nat × ProductCustomization)))) :
    validateAndFetchProducts cat (mapQuantities f items)
        = validateAndFetchProducts cat items
    ∧ ∀ oi ∈ (calculateOrderTotals items ps cs).2,
        oi.subtotal = oi.unitPrice * (oi.quantity : Money) := by
  constructor
  · exact validateLoop_mapQuantities cat items f [] []
  · intro oi hmem
    rw [calculateOrderTotals_eq] at hmem
    rw [List.mem_map] at hmem
    obtain ⟨it, hit, rfl⟩ := hmem
    rfl

theorem C7_quantity_unchecked_amended_witness :
    validateAndFetchProducts c7Cat (mapQuantities (fun _ => -3) c7Req.items)
        = validateAndFetchProducts c7Cat c7Req.items
    ∧ (lineOrderItem [] []
          { productID := 13, quantity := 0, notes := none, customizations := [] }).subtotal
        = (lineOrderItem [] []
            { productID := 13, quantity := 0, notes := none, customizations := [] }).unitPrice
          * (((lineOrderItem [] []
              { productID := 13, quantity := 0, notes := none,
                customizations := [] }).quantity : Int) : Money) :=
  have h := C7_quantity_unchecked_amended c7Cat c7Req.items (fun _ => -3) [] []
  ⟨h.1, h.2 _ (of_decide_eq_true (by with_unfolding_all rfl))⟩

/-! ## C8: the order number race -/

/-- Decomposition of CreateGuestOrder at its transaction boundaries: the
read-only phase (validation, totals, the number-generation transaction)
touches no state, and the insert runs afterwards in its own transaction. -/
theorem createGuestOrder_phase_split (db : Db) (today : String)
    (req : CreateOrderRequest) :
    CreateGuestOrder db true today req
      = (match createGuestOrderPhase1 db today req with
         | .error e => (.error e, db)
         | .ok o =>
             let created := insertOrder db o
             match findOrderByUUID created.2.orders created.1.uuid with
             | some fetched => (.ok fetched, created.2)
             | none => (.error .orderNotFound, created.2)) := by
  cases hv : validateAndFetchProducts db.catalog req.items <;>
    simp [CreateGuestOrder, createGuestOrderPhase1, hv]

/-- C8: evaluation at the failing input. The generation transaction contains
only the find-max read and commits before the separate insert transaction, so
two creations whose schedules overlap both read the same maximum: from the
empty store both generate MC-251011-001, violating pairwise distinctness,
while the serialized schedule yields the distinct numbers 001 and 002. -/
theorem C8_interleaved_duplicate_order_numbers :
    ((okValue (twoGuestOrdersInterleaved c5Db "251011" c5Req c5Req).1).map
        Order.orderNumber = some "MC-251011-001")
    ∧ ((okValue (twoGuestOrdersInterleaved c5Db "251011" c5Req c5Req).2.1).map
        Order.orderNumber = some "MC-251011-001")
    ∧ ((okValue (twoGuestOrdersSequential c5Db "251011" c5Req c5Req).1).map
        Order.orderNumber = some "MC-251011-001")
    ∧ ((okValue (twoGuestOrdersSequential c5Db "251011" c5Req c5Req).2.1).map
        Order.orderNumber = some "MC-251011-002") := by
  refine ⟨?_, ?_, ?_, ?_⟩ <;> with_unfolding_all rfl

/-! ## C3, C4, C9: the payment webhook -/

theorem applyNotification_orderID (cfg : GatewayCfg) (p : Payment)
    (n : MidtransNotification) :
    (applyNotificationToPayment cfg p n).orderID = p.orderID := by
  unfold applyNotificationToPayment
  rcases hst : n.settlementTime with _ | st
  · rfl
  · dsimp only
    by_cases h : st = ""
    · rw [if_neg (not_not_intro h)]
    · rw [if_pos h]
      rcases hp : cfg.parseTime st with _ | t <;> rfl

/-- Shared reduction of a webhook run that passes the signature, lookup and
amount checks, with the preloaded order reference resolving: the payment row
is rewritten with the notification fields and the orders table receives the
direct status write selected by the transaction-status switch, when any. -/
theorem processWebhook_ok_shape (cfg : GatewayCfg) (db : Db)
    (n : MidtransNotification) (payment : Payment)
    (hsig : VerifySignature cfg n.orderID n.statusCode n.grossAmount n.signatureKey = true)
    (hfind : findPaymentByMidtransOrderID db.payments n.orderID = some payment)
    (hamt : parseDecimal n.grossAmount = some payment.grossAmount)
    (hord : (findOrderByID db.orders payment.orderID).isSome = true) :
    ProcessWebhookNotification cfg db n
      = (.ok (), { db with
          payments := updatePaymentList db.payments (applyNotificationToPayment cfg payment n),
          orders :=
            match orderActionFor n.transactionStatus with
            | some st => updateStatusList db.orders payment.orderID st cfg.now
            | none => db.orders }) := by
  have hids := applyNotification_orderID cfg payment n
  simp only [ProcessWebhookNotification, hsig, Bool.not_true, Bool.false_eq_true,
    if_false, hfind, hamt, ne_eq, not_true_eq_false, ite_false, hids]
  cases ha : orderActionFor n.transactionStatus with
  | some st => simp [ha, hids, hord]
  | none => simp [ha]

/-- C3: ProcessWebhookNotification verifies the signature before any payment
lookup: VerifySignature compares the supplied signature key with the
hex-encoded SHA-512 digest of order_id concatenated with status_code,
gross_amount and the server key, and on mismatch the call fails with
InvalidSignature while the database (payments and orders alike) is returned
untouched — for every store content, including stores where the payment does
not even exist, which shows no lookup outcome can precede the check. -/
theorem C3_invalid_signature (cfg : GatewayCfg) (db : Db) (n : MidtransNotification)
    (h : VerifySignature cfg n.orderID n.statusCode n.grossAmount n.signatureKey = false) :
    ProcessWebhookNotification cfg db n = (.error .invalidSignature, db)
    ∧ (VerifySignature cfg n.orderID n.statusCode n.grossAmount n.signatureKey = true
        ↔ cfg.sha512hex (n.orderID ++ n.statusCode ++ n.grossAmount ++ cfg.serverKey)
            = n.signatureKey) := by
  constructor
  · simp [ProcessWebhookNotification, h]
  · simp [VerifySignature]

theorem C3_invalid_signature_witness :
    ProcessWebhookNotification pwCfg pwDb c3Note = (.error .invalidSignature, pwDb) :=
  (C3_invalid_signature pwCfg pwDb c3Note (by with_unfolding_all rfl)).1

/-- C4: for every notification that passes the signature, payment-lookup and
amount checks (and whose payment row references an existing order),
ProcessWebhookNotification maps the gateway transaction status onto the
order: settlement drives the order to preparing; expire, cancel or deny drive
it to cancelled; pending or any other value (orderActionFor returns none
exactly for those) leaves the orders table untouched — and in every one of
these cases the notification completes without error. -/
theorem C4_webhook_status_mapping (cfg : GatewayCfg) (db : Db)
    (n : MidtransNotification) (payment : Payment)
    (hsig : VerifySignature cfg n.orderID n.statusCode n.grossAmount n.signatureKey = true)
    (hfind : findPaymentByMidtransOrderID db.payments n.orderID = some payment)
    (hamt : parseDecimal n.grossAmount = some payment.grossAmount)
    (hord : (findOrderByID db.orders payment.orderID).isSome = true) :
    isOkE (ProcessWebhookNotification cfg db n).1 = true
    ∧ (n.transactionStatus = "settlement" →
        (findOrderByID (ProcessWebhookNotification cfg db n).2.orders
            payment.orderID).map Order.status = some .preparing)
    ∧ ((n.transactionStatus = "expire" ∨ n.transactionStatus = "cancel"
          ∨ n.transactionStatus = "deny") →
        (findOrderByID (ProcessWebhookNotification cfg db n).2.orders
            payment.orderID).map Order.status = some .cancelled)
    ∧ (orderActionFor n.transactionStatus = none →
        (ProcessWebhookNotification cfg db n).2.orders = db.orders) := by
  have hshape := processWebhook_ok_shape cfg db n payment hsig hfind hamt hord
  obtain ⟨o, ho⟩ := Option.isSome_iff_exists.mp hord
  have hpid : (o.id == payment.orderID) = true :=
    firstRow_some_pred (fun x : Order => x.id == payment.orderID) db.orders o ho
  have hpe : o.id = payment.orderID := by simpa using hpid
  refine ⟨?_, ?_, ?_, ?_⟩
  · rw [hshape]; rfl
  · intro hts
    have ha : orderActionFor n.transactionStatus = some .preparing := by
      rw [hts]; simp [orderActionFor]
    rw [hshape]
    simp only [ha]
    rw [findOrderByID_updateStatusList, ho]
    simp [hpe, applyStatus]
  · intro hts
    have ha : orderActionFor n.transactionStatus = some .cancelled := by
      rcases hts with hts | hts | hts <;> rw [hts] <;> simp [orderActionFor]
    rw [hshape]
    simp only [ha]
    rw [findOrderByID_updateStatusList, ho]
    simp [hpe, applyStatus]
  · intro ha
    rw [hshape]
    simp only [ha]

theorem C4_webhook_status_mapping_witness :
    isOkE (ProcessWebhookNotification pwCfg pwDb pwNote).1 = true
    ∧ (findOrderByID (ProcessWebhookNotification pwCfg pwDb pwNote).2.orders
        7).map Order.status = some .preparing :=
  have h := C4_webhook_status_mapping pwCfg pwDb pwNote pwPayment
    (by with_unfolding_all rfl) (by with_unfolding_all rfl)
    (by with_unfolding_all rfl) (by with_unfolding_all rfl)
  ⟨h.1, h.2.1 rfl⟩

/-- C9: the webhook drives the order with a direct repository status write
and never consults isValidStatusTransition: whatever the current status of
the referenced order (the order o below is arbitrary, including ready,
completed or cancelled), a settlement notification rewrites it to preparing
and an expire, cancel or deny notification rewrites it to cancelled, always
completing without error; consequently ProcessWebhookNotification can never
fail with InvalidStatusTransition, and redelivering a settlement notification
to an already-preparing order (the witness instantiates exactly that)
succeeds as a rewrite of the same status. -/
theorem C9_webhook_bypasses_state_machine (cfg : GatewayCfg) (db : Db)
    (n : MidtransNotification) (payment : Payment) (o : Order)
    (hsig : VerifySignature cfg n.orderID n.statusCode n.grossAmount n.signatureKey = true)
    (hfind : findPaymentByMidtransOrderID db.payments n.orderID = some payment)
    (hamt : parseDecimal n.grossAmount = some payment.grossAmount)
    (ho : findOrderByID db.orders payment.orderID = some o) :
    (n.transactionStatus = "settlement" →
      isOkE (ProcessWebhookNotification cfg db n).1 = true
      ∧ (findOrderByID (ProcessWebhookNotification cfg db n).2.orders
          payment.orderID).map Order.status = some .preparing)
    ∧ ((n.transactionStatus = "expire" ∨ n.transactionStatus = "cancel"
          ∨ n.transactionStatus = "deny") →
      isOkE (ProcessWebhookNotification cfg db n).1 = true
      ∧ (findOrderByID (ProcessWebhookNotification cfg db n).2.orders
          payment.orderID).map Order.status = some .cancelled)
    ∧ (∀ cfg2 db2 n2,
        (ProcessWebhookNotification cfg2 db2 n2).1 ≠ .error .invalidStatusTransition) := by
  have hord : (findOrderByID db.orders payment.orderID).isSome = true := by
    rw [ho]; rfl
  have hshape := processWebhook_ok_shape cfg db n payment hsig hfind hamt hord
  have hpid : (o.id == payment.orderID) = true :=
    firstRow_some_pred (fun x : Order => x.id == payment.orderID) db.orders o ho
  have hpe : o.id = payment.orderID := by simpa using hpid
  refine ⟨?_, ?_, ?_⟩
  · intro hts
    have ha : orderActionFor n.transactionStatus = some .preparing := by
      rw [hts]; simp [orderActionFor]
    rw [hshape]
    refine ⟨rfl, ?_⟩
    simp only [ha]
    rw [findOrderByID_updateStatusList, ho]
    simp [hpe, applyStatus]
  · intro hts
    have ha : orderActionFor n.transactionStatus = some .cancelled := by
      rcases hts with hts | hts | hts <;> rw [hts] <;> simp [orderActionFor]
    rw [hshape]
    refine ⟨rfl, ?_⟩
    simp only [ha]
    rw [findOrderByID_updateStatusList, ho]
    simp [hpe, applyStatus]
  · intro cfg2 db2 n2
    unfold ProcessWebhookNotification
    split
    · simp
    · split
      · simp
      · split
        · simp
        · split
          · simp
          · split
            · dsimp only
              split <;> simp
            · simp

theorem C9_webhook_bypasses_state_machine_witness :
    isOkE (ProcessWebhookNotification pwCfg pw9Db pwNote).1 = true
    ∧ (findOrderByID (ProcessWebhookNotification pwCfg pw9Db pwNote).2.orders
        7).map Order.status = some .preparing :=
  have h := C9_webhook_bypasses_state_machine pwCfg pw9Db pwNote pwPayment
    { pwOrder with status := .preparing }
    (by with_unfolding_all rfl) (by with_unfolding_all rfl)
    (by with_unfolding_all rfl) (by with_unfolding_all rfl)
  h.1 rfl

/-! ## C10: customization maps are keyed by product id alone -/

theorem orElseO_none {α : Type} (a : Option α) : orElseO a none = a := by
  cases a <;> rfl

theorem mem_keys_goInsert {β : Type} (m : List (Nat × β)) (k : Nat) (v : β) (a : Nat) :
    a ∈ (goInsert m k v).map Prod.fst ↔ a = k ∨ a ∈ m.map Prod.fst := by
  induction m with
  | nil => simp [goInsert]
  | cons hd tl ih =>
      obtain ⟨k₁, v₁⟩ := hd
      by_cases h : k₁ = k
      · subst h
        simp [goInsert]
        try tauto
      · simp [goInsert, h, ih]
        try tauto

theorem keys_nodup_goInsert {β : Type} (m : List (Nat × β)) (k : Nat) (v : β)
    (h : (m.map Prod.fst).Nodup) : ((goInsert m k v).map Prod.fst).Nodup := by
  induction m with
  | nil => simp [goInsert]
  | cons hd tl ih =>
      obtain ⟨k₁, v₁⟩ := hd
      simp only [List.map_cons, List.nodup_cons] at h
      obtain ⟨hnotin, hnd⟩ := h
      by_cases hk : k₁ = k
      · subst hk
        simp [goInsert, List.nodup_cons, hnotin, hnd]
      · simp only [goInsert, hk, if_false, List.map_cons, List.nodup_cons]
        refine ⟨?_, ih hnd⟩
        intro hmem
        rcases (mem_keys_goInsert tl k v k₁).mp hmem with h' | h'
        · exact hk h'
        · exact hnotin h'

theorem buildCustomMap_keys_nodup (cat : Catalog) (product : Product)
    (reqs : List OrderItemCustomization) (acc m : List (Nat × ProductCustomization))
    (hacc : (acc.map Prod.fst).Nodup)
    (h : buildCustomMap cat product reqs acc = .ok m) :
    (m.map Prod.fst).Nodup := by
  induction reqs generalizing acc with
  | nil =>
      simp only [buildCustomMap] at h
      injection h with h1
      subst h1
      exact hacc
  | cons c rest ih =>
      simp only [buildCustomMap] at h
      cases hf : findCustomizationByUUID cat c.customizationID with
      | none => rw [hf] at h; exact absurd h (by simp)
      | some custom =>
          simp only [hf] at h
          by_cases hb : custom.productID = product.id
          · rw [if_neg (not_not_intro hb)] at h
            exact ih _ (keys_nodup_goInsert _ _ _ hacc) h
          · rw [if_pos hb] at h
            exact absurd h (by simp)

theorem validateLoop_custom_find (cat : Catalog) (items : List CreateOrderItemRequest)
    (ps₀ : List (Nat × Product)) (cs₀ : List (Nat × (List (Nat × ProductCustomization))))
    (ps : List (Nat × Product)) (cs : List (Nat × (List (Nat × ProductCustomization))))
    (h : validateLoop cat items ps₀ cs₀ = .ok (ps, cs)) (pid : Nat) :
    goFind? cs pid = orElseO (lastCustomMapSpec cat items pid) (goFind? cs₀ pid) := by
  induction items generalizing ps₀ cs₀ with
  | nil =>
      simp only [validateLoop] at h
      injection h with h1
      cases h1
      simp [lastCustomMapSpec, orElseO]
  | cons item rest ih =>
      simp only [validateLoop] at h
      cases hp : findProductByUUID cat item.productID with
      | none => rw [hp] at h; exact absurd h (by simp)
      | some product =>
          simp only [hp] at h
          cases hav : product.isAvailable with
          | false =>
              simp only [hav, Bool.not_false, if_true] at h
              exact absurd h (by simp)
          | true =>
              simp only [hav, Bool.not_true, Bool.false_eq_true, if_false] at h
              by_cases hlen : item.customizations.length > 0
              · simp only [hlen, if_true] at h
                cases hcz : product.isCustomizable with
                | false =>
                    simp only [hcz, Bool.not_false, if_true] at h
                    exact absurd h (by simp)
                | true =>
                    simp only [hcz, Bool.not_true, Bool.false_eq_true, if_false] at h
                    cases hb : buildCustomMap cat product item.customizations [] with
                    | error e' => rw [hb] at h; exact absurd h (by simp)
                    | ok customMap =>
                        simp only [hb] at h
                        have ihh := ih _ _ h
                        rw [ihh, goFind?_goInsert]
                        have hne : item.customizations ≠ [] := by
                          intro hemp
                          rw [hemp] at hlen
                          simp at hlen
                        cases hspec : lastCustomMapSpec cat rest pid with
                        | some mm => simp [lastCustomMapSpec, hspec, orElseO]
                        | none =>
                            by_cases hpid : item.productID = pid
                            · subst hpid
                              simp [lastCustomMapSpec, hspec, hne, hp, hb,
                                orElseO, okValue]
                            · simp [lastCustomMapSpec, hspec, hpid, orElseO]
              · simp only [hlen, if_false] at h
                have ihh := ih _ _ h
                rw [ihh]
                have hemp : item.customizations = [] :=
                  List.eq_nil_of_length_eq_zero (by omega)
                cases hspec : lastCustomMapSpec cat rest pid <;>
                  simp [lastCustomMapSpec, hspec, hemp, orElseO]

theorem validateLoop_ps_find (cat : Catalog) (items : List CreateOrderItemRequest)
    (ps₀ : List (Nat × Product)) (cs₀ : List (Nat × (List (Nat × ProductCustomization))))
    (ps : List (Nat × Product)) (cs : List (Nat × (List (Nat × ProductCustomization))))
    (h : validateLoop cat items ps₀ cs₀ = .ok (ps, cs)) (k : Nat) :
    goFind? ps k
      = if items.any (fun it => it.productID == k) then findProductByUUID cat k
        else goFind? ps₀ k := by
  induction items generalizing ps₀ cs₀ with
  | nil =>
      simp only [validateLoop] at h
      injection h with h1
      cases h1
      simp
  | cons item rest ih =>
      simp only [validateLoop] at h
      cases hp : findProductByUUID cat item.productID with
      | none => rw [hp] at h; exact absurd h (by simp)
      | some product =>
          simp only [hp] at h
          cases hav : product.isAvailable with
          | false =>
              simp only [hav, Bool.not_false, if_true] at h
              exact absurd h (by simp)
          | true =>
              simp only [hav, Bool.not_true, Bool.false_eq_true, if_false] at h
              have hstep : ∀ cs₁, validateLoop cat rest
                    (goInsert ps₀ item.productID product) cs₁ = .ok (ps, cs) →
                  goFind? ps k = if (item :: rest).any (fun it => it.productID == k)
                    then findProductByUUID cat k else goFind? ps₀ k := by
                intro cs₁ h₁
                have ihh := ih _ _ h₁
                rw [ihh, goFind?_goInsert]
                by_cases hany : rest.any (fun it => it.productID == k) = true
                · simp [hany, List.any_cons]
                · by_cases hpid : item.productID = k
                  · subst hpid
                    simp [hany, hp, List.any_cons]
                  · simp [hany, hpid, List.any_cons]
              by_cases hlen : item.customizations.length > 0
              · simp only [hlen, if_true] at h
                cases hcz : product.isCustomizable with
                | false =>
                    simp only [hcz, Bool.not_false, if_true] at h
                    exact absurd h (by simp)
                | true =>
                    simp only [hcz, Bool.not_true, Bool.false_eq_true, if_false] at h
                    cases hb : buildCustomMap cat product item.customizations [] with
                    | error e' => rw [hb] at h; exact absurd h (by simp)
                    | ok customMap =>
                        simp only [hb] at h
                        exact hstep _ h
              · simp only [hlen, if_false] at h
                exact hstep _ h

theorem validateLoop_product_resolves (cat : Catalog)
    (items : List CreateOrderItemRequest)
    (ps₀ : List (Nat × Product)) (cs₀ : List (Nat × (List (Nat × ProductCustomization))))
    (ps : List (Nat × Product)) (cs : List (Nat × (List (Nat × ProductCustomization))))
    (h : validateLoop cat items ps₀ cs₀ = .ok (ps, cs)) :
    ∀ item ∈ items, ∃ product, findProductByUUID cat item.productID = some product := by
  induction items generalizing ps₀ cs₀ with
  | nil => intro item hmem; simp at hmem
  | cons it rest ih =>
      simp only [validateLoop] at h
      cases hp : findProductByUUID cat it.productID with
      | none => rw [hp] at h; exact absurd h (by simp)
      | some product =>
          simp only [hp] at h
          cases hav : product.isAvailable with
          | false =>
              simp only [hav, Bool.not_false, if_true] at h
              exact absurd h (by simp)
          | true =>
              simp only [hav, Bool.not_true, Bool.false_eq_true, if_false] at h
              have hrest : ∀ cs₁, validateLoop cat rest
                    (goInsert ps₀ it.productID product) cs₁ = .ok (ps, cs) →
                  ∀ item ∈ it :: rest, ∃ p,
                    findProductByUUID cat item.productID = some p := by
                intro cs₁ h₁ item hmem
                rcases List.mem_cons.mp hmem with hmem | hmem
                · subst hmem; exact ⟨product, hp⟩
                · exact ih _ _ h₁ item hmem
              by_cases hlen : it.customizations.length > 0
              · simp only [hlen, if_true] at h
                cases hcz : product.isCustomizable with
                | false =>
                    simp only [hcz, Bool.not_false, if_true] at h
                    exact absurd h (by simp)
                | true =>
                    simp only [hcz, Bool.not_true, Bool.false_eq_true, if_false] at h
                    cases hb : buildCustomMap cat product it.customizations [] with
                    | error e' => rw [hb] at h; exact absurd h (by simp)
                    | ok customMap =>
                        simp only [hb] at h
                        exact hrest _ h
              · simp only [hlen, if_false] at h
                exact hrest _ h

/-- C10 counterexample: in the cart c10Req the same product appears twice,
first with the Large (+50) selection and then with no selections. The code
prices BOTH lines at 150 (base 100 plus the modifier), because the entry of
line one survives in the product-keyed map, while the claim (pricing with the
set of the LAST line referencing the product, here the empty set of line two)
predicts 100 for both lines. -/
theorem C10_last_line_counterexample :
    (okValue (CreateGuestOrder c10Db true "251011" c10Req).1).map
        (fun o => o.items.map (fun i => i.unitPrice)) = some [150, 150]
    ∧ claimLastSelections c10Req.items c10Item2.productID = []
    ∧ claimPredictedUnitPrice c10Cat c10Req.items c10Item1 = 100
    ∧ claimPredictedUnitPrice c10Cat c10Req.items c10Item2 = 100
    ∧ (150 : Money) ≠ 100 := by
  refine ⟨?_, ?_, ?_, ?_, ?_⟩
  · with_unfolding_all rfl
  · with_unfolding_all rfl
  · with_unfolding_all rfl
  · with_unfolding_all rfl
  · norm_num

/-- C10 amended: during order creation the fetched customizations are keyed
by product id alone, and the entry of a product is the map built from the
LAST line item referencing that product THAT CARRIES A NONEMPTY selection
list (line items with no selections leave the recorded set in place); every
line of that product is then priced with that one surviving set instead of
its own selections, and a customization id repeated within one line item is
counted only once (the built map has pairwise distinct keys). -/
theorem C10_customizations_amended (cat : Catalog)
    (items : List CreateOrderItemRequest)
    (ps : List (Nat × Product)) (cs : List (Nat × (List (Nat × ProductCustomization))))
    (h : validateAndFetchProducts cat items = .ok (ps, cs)) :
    (∀ pid, goFind? cs pid = lastCustomMapSpec cat items pid)
    ∧ (∀ item ∈ items, ∃ product,
        findProductByUUID cat item.productID = some product
        ∧ (lineOrderItem ps cs item).unitPrice
            = product.basePrice + modSum (lastCustomMapSpec cat items item.productID))
    ∧ (∀ product reqs m, buildCustomMap cat product reqs [] = .ok m →
        (m.map Prod.fst).Nodup) := by
  refine ⟨?_, ?_, ?_⟩
  · intro pid
    have hcf := validateLoop_custom_find cat items [] [] ps cs h pid
    rw [hcf]
    exact orElseO_none _
  · intro item hmem
    obtain ⟨product, hp⟩ :=
      validateLoop_product_resolves cat items [] [] ps cs h item hmem
    refine ⟨product, hp, ?_⟩
    have hany : items.any (fun it => it.productID == item.productID) = true :=
      List.any_eq_true.mpr ⟨item, hmem, by simp⟩
    have hps := validateLoop_ps_find cat items [] [] ps cs h item.productID
    rw [hany] at hps
    simp only [eq_self_iff_true, if_true] at hps
    have hcs : goFind? cs item.productID
        = lastCustomMapSpec cat items item.productID := by
      have hcf := validateLoop_custom_find cat items [] [] ps cs h item.productID
      rw [hcf]
      exact orElseO_none _
    unfold lineOrderItem
    rw [hps, hp, hcs]
    cases hspec : lastCustomMapSpec cat items item.productID with
    | none => simp [modSum]
    | some mm =>
        by_cases hl : mm.length > 0
        · simp [hl, modSum]
        · have hemp : mm = [] := List.eq_nil_of_length_eq_zero (by omega)
          subst hemp
          simp [modSum]
  · intro product reqs m hb
    exact buildCustomMap_keys_nodup cat product reqs [] m (by simp) hb

theorem C10_customizations_amended_witness :
    goFind? c10CsV 11 = lastCustomMapSpec c10Cat c10Req.items 11
    ∧ ∃ product, findProductByUUID c10Cat c10Item1.productID = some product
        ∧ (lineOrderItem c10PsV c10CsV c10Item1).unitPrice
            = product.basePrice
              + modSum (lastCustomMapSpec c10Cat c10Req.items c10Item1.productID) :=
  have h := C10_customizations_amended c10Cat c10Req.items c10PsV c10CsV
    (by with_unfolding_all rfl)
  ⟨h.1 11, h.2.1 c10Item1 (by decide)⟩

end Matchaciee
